import Mathlib

/-!
Verification development for the geo (device location) API of
openwisp-controller.

The definitions below are a shallow embedding of
`openwisp_controller/geo/api/views.py`,
`openwisp_controller/geo/api/serializers.py` and
`openwisp_controller/geo/utils.py`.  Database tables are embedded as
lists of records, HTTP query strings as association lists together with
their raw encoding, and each view method as a pure function from a
database state and a request to a response and a new database state.
Pieces of the repository that its `views.py` imports but whose code is
not present here (the nested `DeviceLocationSerializer` update logic and
the `FilterByOrganizationManaged` queryset mixin) are modelled from the
specification and are marked as such in their doc comments.
-/

namespace OpenwispGeo

/-- The two values of the `Location.type` field (`indoor` / `outdoor`). -/
inductive LocationType where
  | indoor
  | outdoor
deriving DecidableEq, Repr

/-- Embedding of the `Location` model: organization-owned geographic
record with a type, mobility flag, address and optional point geometry
(geometry is `none` while unset). -/
structure Location where
  id : Nat
  organization : Nat
  name : String
  type : LocationType
  is_mobile : Bool
  address : String
  geometry : Option (Int × Int)
deriving DecidableEq, Repr

/-- Embedding of the `FloorPlan` model: anchored to one location, with a
signed floor index and the organization denormalized from the location. -/
structure FloorPlan where
  id : Nat
  location : Nat
  floor : Int
  organization : Nat
deriving DecidableEq, Repr

/-- Embedding of the `Device` model (external to the geo app): carries
the per-device secret `key` used by unauthenticated self-service calls. -/
structure Device where
  id : Nat
  organization : Nat
  name : String
  key : String
deriving DecidableEq, Repr

/-- Embedding of the `DeviceLocation` association: binds a device to a
location, optionally a floorplan, and an indoor coordinate string
(`none` embeds SQL NULL, `some ""` embeds the empty string). -/
structure DeviceLocation where
  id : Nat
  device : Nat
  location : Nat
  floorplan : Option Nat
  indoor : Option String
deriving DecidableEq, Repr

/-- The relational state the geo API reads and writes. -/
structure DB where
  devices : List Device
  locations : List Location
  devicelocations : List DeviceLocation
  floorplans : List FloorPlan
deriving DecidableEq, Repr

/-- An authenticated operator: the organizations the account belongs to
and the superuser flag. -/
structure User where
  id : Nat
  organizations : List Nat
  is_superuser : Bool
deriving DecidableEq, Repr

/-- HTTP methods routed by the device-location view (POST is rejected
with 405 because the view is retrieve/update/destroy only). -/
inductive Method where
  | GET
  | PUT
  | PATCH
  | DELETE
  | POST
deriving DecidableEq, Repr

/-- A fresh primary key: one more than the largest id in use. -/
def freshId (ids : List Nat) : Nat :=
  ids.foldr (fun i m => max i m) 0 + 1

/-- `request.query_params.get(k)`: Django's QueryDict keeps the last
value given for a repeated parameter. -/
def getParam (params : List (String × String)) (k : String) : Option String :=
  params.foldl (fun acc p => if p.1 == k then some p.2 else acc) none

/-- Python truthiness of `query_params.get(k)`: present and non-empty. -/
def truthyParam (params : List (String × String)) (k : String) : Bool :=
  match getParam params k with
  | some v => v != ""
  | none => false

/-- `request.META['QUERY_STRING']`: the raw query string that the
association list encodes. -/
def rawQueryString (params : List (String × String)) : String :=
  String.intercalate "&" (params.map fun p => p.1 ++ "=" ++ p.2)

/-- Whether the first character list occurs at the head of the second. -/
def charsLead : List Char → List Char → Bool
  | [], _ => true
  | _ :: _, [] => false
  | a :: as, b :: bs => a == b && charsLead as bs

/-- Whether the first character list occurs anywhere in the second. -/
def charsHave (pat : List Char) : List Char → Bool
  | [] => charsLead pat []
  | c :: cs => charsLead pat (c :: cs) || charsHave pat cs

/-- Python's `pat in s` substring test on strings. -/
def strContains (s pat : String) : Bool :=
  charsHave pat.data s.data

namespace DevicePermission

/-- Embedding of `DevicePermission.has_object_permission`
(views.py lines 28-38): if the request carries a truthy `key` query
parameter, grant exactly when it equals the device's stored key;
otherwise deny.  `deviceKey` is the key reached through `obj.key` or
`obj.device.key`. -/
def has_object_permission (params : List (String × String))
    (deviceKey : String) : Bool :=
  if truthyParam params "key" then
    match getParam params "key" with
    | some received_key => received_key == deviceKey
    | none => false
  else
    false

end DevicePermission

/-- The permission classes `DeviceLocationView.get_permissions` can
return: `DevicePermission`, `IsAuthenticated`, `DjangoModelPermissions`. -/
inductive Perm where
  | devicePerm
  | isAuth
  | modelPerms
deriving DecidableEq, Repr

/-- View-level (`has_permission`) outcome of one permission class.
`DevicePermission` does not override `has_permission`, so it defaults to
allow; `mp` is whether the user holds the Django model permission the
method requires. -/
def permAllowsRequest (p : Perm) (u : Option User) (mp : Bool) : Bool :=
  match p with
  | .devicePerm => true
  | .isAuth => u.isSome
  | .modelPerms => mp

/-- Object-level (`has_object_permission`) outcome of one permission
class; `IsAuthenticated` and `DjangoModelPermissions` keep the default
allow. -/
def permAllowsObject (p : Perm) (params : List (String × String))
    (deviceKey : String) : Bool :=
  match p with
  | .devicePerm => DevicePermission.has_object_permission params deviceKey
  | .isAuth => true
  | .modelPerms => true

namespace DeviceLocationView

/-- Embedding of `DeviceLocationView.get_permissions`
(views.py lines 84-97): anonymous callers, and any caller whose raw
query string contains the substring `key=`, get `DevicePermission`
alone; everyone else is checked by `IsAuthenticated` plus
`DjangoModelPermissions`. -/
def get_permissions (authenticated : Bool) (rawQS : String) : List Perm :=
  if !authenticated then
    [.devicePerm]
  else if strContains rawQS "key=" then
    [.devicePerm]
  else
    [.isAuth, .modelPerms]

/-- Embedding of `DeviceLocationView.get_organization_queryset`
(views.py lines 68-82): authenticated callers without a truthy `key`
parameter see only devices of their own organizations; everyone else
sees the queryset unfiltered. -/
def get_organization_queryset (u : Option User)
    (params : List (String × String)) (qs : List Device) : List Device :=
  match u with
  | some user =>
      if !(truthyParam params "key") then
        qs.filter fun d => user.organizations.contains d.organization
      else
        qs
  | none => qs

/-- Modelled from the spec: `FilterByOrganizationManaged.get_queryset`
comes from the external openwisp-users package (only its import is in
src).  Per section 4.1 a superuser is unrestricted and every other
caller goes through the organization filter, which
`DeviceLocationView.get_organization_queryset` overrides above. -/
def get_queryset (u : Option User) (params : List (String × String))
    (qs : List Device) : List Device :=
  match u with
  | some user =>
      if user.is_superuser then qs else get_organization_queryset u params qs
  | none => get_organization_queryset none params qs

/-- Embedding of `DeviceLocationView.create_devicelocation`
(views.py lines 116-128): build a Location from the device's name and
organization with type outdoor, mobile, no geometry, then a
DeviceLocation with no floorplan and indoor set to the empty string. -/
def create_devicelocation (db : DB) (device : Device) :
    DeviceLocation × DB :=
  let location : Location :=
    { id := freshId (db.locations.map (·.id))
      organization := device.organization
      name := device.name
      type := .outdoor
      is_mobile := true
      address := ""
      geometry := none }
  let dl : DeviceLocation :=
    { id := freshId (db.devicelocations.map (·.id))
      device := device.id
      location := location.id
      floorplan := none
      indoor := some "" }
  (dl, { db with
          locations := db.locations ++ [location]
          devicelocations := db.devicelocations ++ [dl] })

end DeviceLocationView

/-- The responses the single-device endpoint can produce.
`writeDelegated` marks the PATCH/PUT paths that continue into the nested
`DeviceLocationSerializer.update` (that serializer is imported by
views.py but its code is not in src; its outdoor cascade is modelled
separately below). -/
inductive Response where
  | ok (dl : DeviceLocation)
  | noContent
  | notFound
  | forbidden
  | methodNotAllowed
  | writeDelegated (dl : DeviceLocation)
deriving DecidableEq, Repr

/-- The combined DRF permission decision for the single-device endpoint:
every returned permission class must pass both its view-level and its
object-level check against the target device's key. -/
def authorizationDecision (u : Option User) (mp : Bool)
    (params : List (String × String)) (deviceKey : String) : Bool :=
  (DeviceLocationView.get_permissions u.isSome (rawQueryString params)).all
    fun p => permAllowsRequest p u mp && permAllowsObject p params deviceKey

/-- Embedding of one request to the single-device endpoint
(`/device/{pk}/location/`, `DeviceLocationView`): DRF checks view-level
permissions, dispatches the verb (POST is 405), resolves the device
through the organization-filtered queryset (404 when absent), checks
object-level permissions (403), then runs
`DeviceLocationView.get_object` (views.py lines 105-114): a missing
association is 404 for GET/PATCH/DELETE and is auto-provisioned for
PUT.  GET returns the association; DELETE deletes exactly that row;
PATCH/PUT hand the association to the nested serializer update. -/
def device_location_endpoint (db : DB) (u : Option User) (mp : Bool)
    (params : List (String × String)) (pk : Nat) (method : Method) :
    Response × DB :=
  let perms := DeviceLocationView.get_permissions u.isSome (rawQueryString params)
  if !(perms.all fun p => permAllowsRequest p u mp) then
    (.forbidden, db)
  else if method == .POST then
    (.methodNotAllowed, db)
  else
    match (DeviceLocationView.get_queryset u params db.devices).find?
        (fun d => d.id == pk) with
    | none => (.notFound, db)
    | some device =>
      if !(perms.all fun p => permAllowsObject p params device.key) then
        (.forbidden, db)
      else
        match db.devicelocations.find? (fun dl => dl.device == device.id) with
        | some dl =>
          match method with
          | .GET => (.ok dl, db)
          | .DELETE =>
              (.noContent,
               { db with devicelocations :=
                  db.devicelocations.filter fun x => !(x.id == dl.id) })
          | _ => (.writeDelegated dl, db)
        | none =>
          match method with
          | .PUT =>
              let r := DeviceLocationView.create_devicelocation db device
              (.writeDelegated r.1, r.2)
          | _ => (.notFound, db)

/-- The raw nested `location` payload of a device-location write, as
the serializer receives it.  The `organization` entry is the extra
payload key a caller might supply; it is not among the serializer's
`Meta.fields`, so deserialization drops it. -/
structure NestedLocationPayload where
  name : String
  type : LocationType
  is_mobile : Bool
  address : String
  geometry : Option (Int × Int)
  organization : Option Nat
deriving DecidableEq, Repr

/-- The validated data a nested location write stores. -/
structure NestedLocationValidated where
  name : String
  type : LocationType
  is_mobile : Bool
  address : String
  geometry : Option (Int × Int)
  organization : Option Nat
deriving DecidableEq, Repr

namespace DeviceLocationNestedSerializer

/-- Deserialization step of `DeviceLocationNestedSerializer`
(serializers.py lines 79-88): only the fields listed in `Meta.fields`
(`name`, `type`, `is_mobile`, `address`, `geometry`) survive into
validated data; a payload `organization` key is dropped. -/
def to_internal_value (p : NestedLocationPayload) : NestedLocationValidated :=
  { name := p.name
    type := p.type
    is_mobile := p.is_mobile
    address := p.address
    geometry := p.geometry
    organization := none }

/-- Embedding of `DeviceLocationNestedSerializer.validate`
(serializers.py lines 90-94): the stored organization is overwritten
with `self.context.get('device_org')`. -/
def validate (device_org : Option Nat) (data : NestedLocationValidated) :
    NestedLocationValidated :=
  { data with organization := device_org }

/-- A nested location write end to end: deserialize the raw payload,
then validate with the device-org context. -/
def run (device_org : Option Nat) (p : NestedLocationPayload) :
    NestedLocationValidated :=
  validate device_org (to_internal_value p)

end DeviceLocationNestedSerializer

/-- The location record a device-location association resolves to. -/
def locationOfDL (db : DB) (d : DeviceLocation) : Option Location :=
  db.locations.find? fun l => l.id == d.location

/-- One association satisfies the outdoor invariant: if its location
exists and is outdoor, it carries no floorplan and an empty or null
indoor string. -/
def dlOutdoorOk (db : DB) (d : DeviceLocation) : Bool :=
  match locationOfDL db d with
  | some l =>
      if l.type == .outdoor then
        d.floorplan == none && (d.indoor == none || d.indoor == some "")
      else
        true
  | none => true

/-- The outdoor invariant over the whole database. -/
def outdoorInvariant (db : DB) : Prop :=
  ∀ d ∈ db.devicelocations, dlOutdoorOk db d = true

instance (db : DB) : Decidable (outdoorInvariant db) :=
  inferInstanceAs
    (Decidable (∀ d ∈ db.devicelocations, dlOutdoorOk db d = true))

/-- Modelled from the spec: the serializer update that changes a
Location's type to outdoor (`DeviceLocationSerializer` is imported by
src views.py but its code is not in src).  Per section 4.5 rule 2 and
the repository tests `test_change_location_type_to_outdoor_api` and
`test_device_location_with_outdoor_api`, the type change, the deletion
of every FloorPlan anchored to the location, and the clearing of
`floorplan`/`indoor` on every DeviceLocation referencing it happen in
one transaction, embedded here as one function application.  The two
helpers are its per-row steps. -/
def setLocationOutdoor (locId : Nat) (l : Location) : Location :=
  if l.id == locId then { l with type := .outdoor } else l

/-- Clearing step of the outdoor cascade on one association. -/
def clearAssociation (locId : Nat) (d : DeviceLocation) : DeviceLocation :=
  if d.location == locId then { d with floorplan := none, indoor := none }
  else d

/-- The outdoor cascade itself: see the comment on `setLocationOutdoor`. -/
def location_change_type_to_outdoor (db : DB) (locId : Nat) : DB :=
  { db with
    locations := db.locations.map (setLocationOutdoor locId)
    floorplans := db.floorplans.filter fun f => !(f.location == locId)
    devicelocations := db.devicelocations.map (clearAssociation locId) }

/-- The nested floorplan part of a location create payload. -/
structure FloorPlanPayload where
  floor : Int
deriving DecidableEq, Repr

/-- A location create payload with an optional nested floorplan. -/
structure LocationCreatePayload where
  organization : Nat
  name : String
  type : LocationType
  is_mobile : Bool
  address : String
  geometry : Option (Int × Int)
  floorplan : Option FloorPlanPayload
deriving DecidableEq, Repr

/-- Modelled from the spec: the location list-create serializer with
nested floorplan support (imported by src views.py but not in src).
Per section 4.2 and the repository test
`test_create_location_outdoor_with_floorplan`, a nested floorplan
payload on a location whose resolved type is outdoor is rejected with a
validation error before any row is written; otherwise the location
(and the floorplan, when given) is created. -/
def location_create (db : DB) (p : LocationCreatePayload) :
    Except String DB :=
  if p.floorplan.isSome && p.type == .outdoor then
    .error "Floorplan can only be added with location of the type indoor"
  else
    let locId := freshId (db.locations.map (·.id))
    let loc : Location :=
      { id := locId
        organization := p.organization
        name := p.name
        type := p.type
        is_mobile := p.is_mobile
        address := p.address
        geometry := p.geometry }
    let db1 := { db with locations := db.locations ++ [loc] }
    match p.floorplan with
    | some fp =>
        .ok { db1 with floorplans := db1.floorplans ++
               [{ id := freshId (db.floorplans.map (·.id))
                  location := locId
                  floor := fp.floor
                  organization := p.organization }] }
    | none => .ok db1

/-- Modelled from the spec: the organization scope filter of
`FilterByOrganizationManaged` from the external openwisp-users package,
applied by the collection views (section 4.1): a superuser sees
everything, any other operator sees exactly the objects of the
organizations they belong to, and an anonymous caller an empty set. -/
def filterByOrganizationManaged {α : Type} (orgOf : α → Nat)
    (u : Option User) (qs : List α) : List α :=
  match u with
  | some user =>
      if user.is_superuser then qs
      else qs.filter fun x => user.organizations.contains (orgOf x)
  | none => []

/-! Helper lemmas shared by the claim theorems. -/

theorem auth_decision_split (u : Option User) (mp : Bool)
    (params : List (String × String)) (k : String)
    (h : authorizationDecision u mp params k = true) :
    (DeviceLocationView.get_permissions u.isSome (rawQueryString params)).all
        (fun p => permAllowsRequest p u mp) = true
    ∧ (DeviceLocationView.get_permissions u.isSome (rawQueryString params)).all
        (fun p => permAllowsObject p params k) = true := by
  unfold authorizationDecision at h
  rw [List.all_eq_true] at h
  constructor <;> rw [List.all_eq_true] <;> intro p hp <;>
    have hb := h p hp <;> rw [Bool.and_eq_true] at hb
  · exact hb.1
  · exact hb.2

theorem get_permissions_of_key_substr (authenticated : Bool) (rawQS : String)
    (h : strContains rawQS "key=" = true) :
    DeviceLocationView.get_permissions authenticated rawQS = [.devicePerm] := by
  unfold DeviceLocationView.get_permissions
  cases authenticated <;> simp [h]

/-- The tail of `device_location_endpoint` once the permission checks
have passed and the device has been resolved; used to state the
pipeline lemma below. -/
def postAuthStep (db : DB) (method : Method) (device : Device) :
    Response × DB :=
  match db.devicelocations.find? (fun dl => dl.device == device.id) with
  | some dl =>
    match method with
    | .GET => (.ok dl, db)
    | .DELETE =>
        (.noContent,
         { db with devicelocations :=
            db.devicelocations.filter fun x => !(x.id == dl.id) })
    | _ => (.writeDelegated dl, db)
  | none =>
    match method with
    | .PUT =>
        let r := DeviceLocationView.create_devicelocation db device
        (.writeDelegated r.1, r.2)
    | _ => (.notFound, db)

theorem endpoint_eq_of_auth (db : DB) (u : Option User) (mp : Bool)
    (params : List (String × String)) (pk : Nat) (method : Method)
    (device : Device)
    (hdev : (DeviceLocationView.get_queryset u params db.devices).find?
        (fun d => d.id == pk) = some device)
    (hauth : authorizationDecision u mp params device.key = true)
    (hm : method ≠ .POST) :
    device_location_endpoint db u mp params pk method =
      postAuthStep db method device := by
  obtain ⟨h1, h2⟩ := auth_decision_split u mp params device.key hauth
  have hpost : (method == Method.POST) = false := by
    cases method <;> simp at hm ⊢
  unfold device_location_endpoint postAuthStep
  simp only [h1, hpost, hdev, h2, Bool.not_true, Bool.false_eq_true,
    if_false, Bool.true_eq_false]

/-! The claim theorems. -/

/-- The device of the C1 failing input: no DeviceLocation exists for it. -/
def c1_device : Device :=
  { id := 1, organization := 1, name := "test-remove-mobile", key := "k" }

/-- The database of the C1 failing input: one device, no locations and
no associations. -/
def c1_db : DB :=
  { devices := [c1_device], locations := [], devicelocations := [],
    floorplans := [] }

/-- Claim C1: the claim (with spec section 4.3/4.4 and the repository
test test_get_create_location) says a GET by an authorized caller on a
device with no DeviceLocation auto-provisions and returns 200.  The
code instead raises Http404 for GET in DeviceLocationView.get_object
(views.py line 111-112): at the failing input, a GET with the correct
device key on a device with no association, the endpoint answers
Not-Found and creates no Location and no DeviceLocation row. -/
theorem c1_get_no_association_is_not_found :
    device_location_endpoint c1_db none false [("key", "k")] 1 .GET
      = (.notFound, c1_db)
    ∧ (device_location_endpoint c1_db none false [("key", "k")] 1 .GET).2.locations
      = []
    ∧ (device_location_endpoint c1_db none false [("key", "k")] 1 .GET).2.devicelocations
      = [] := by
  refine ⟨by decide, by decide, by decide⟩

/-! Substring lemmas used to relate a parsed `key` parameter to the raw
query string the view inspects. -/

theorem charsLead_append_right (pat l xs : List Char)
    (h : charsLead pat l = true) : charsLead pat (l ++ xs) = true := by
  induction pat generalizing l with
  | nil => rfl
  | cons a as ih =>
    cases l with
    | nil => simp [charsLead] at h
    | cons b bs =>
      rw [List.cons_append]
      unfold charsLead at h ⊢
      rw [Bool.and_eq_true] at h ⊢
      exact ⟨h.1, ih bs h.2⟩

theorem charsLead_refl (xs : List Char) : charsLead xs xs = true := by
  induction xs with
  | nil => rfl
  | cons a as ih => simp [charsLead, ih]

theorem charsHave_nil_pat (l : List Char) : charsHave [] l = true := by
  cases l <;> rfl

theorem charsHave_of_lead (pat l : List Char)
    (h : charsLead pat l = true) : charsHave pat l = true := by
  cases l with
  | nil => exact h
  | cons c cs =>
    unfold charsHave
    rw [h]
    rfl

theorem charsHave_cons (pat : List Char) (c : Char) (l : List Char)
    (h : charsHave pat l = true) : charsHave pat (c :: l) = true := by
  unfold charsHave
  rw [h]
  exact Bool.or_true _

theorem charsHave_append_right (pat l xs : List Char)
    (h : charsHave pat l = true) : charsHave pat (l ++ xs) = true := by
  induction l with
  | nil =>
    have hp : pat = [] := by
      cases pat with
      | nil => rfl
      | cons a as => simp [charsHave, charsLead] at h
    rw [hp, List.nil_append]
    exact charsHave_nil_pat xs
  | cons c cs ih =>
    rw [List.cons_append]
    unfold charsHave at h
    rw [Bool.or_eq_true] at h
    rcases h with h | h
    · exact charsHave_of_lead _ _ (charsLead_append_right pat (c :: cs) xs h)
    · exact charsHave_cons _ _ _ (ih h)

theorem charsHave_append_left (pat xs l : List Char)
    (h : charsHave pat l = true) : charsHave pat (xs ++ l) = true := by
  induction xs with
  | nil => exact h
  | cons c cs ih => exact charsHave_cons _ _ _ ih

theorem strContains_append_right (s t pat : String)
    (h : strContains s pat = true) : strContains (s ++ t) pat = true := by
  unfold strContains at h ⊢
  rw [String.data_append]
  exact charsHave_append_right _ _ _ h

theorem strContains_append_left (s t pat : String)
    (h : strContains t pat = true) : strContains (s ++ t) pat = true := by
  unfold strContains at h ⊢
  rw [String.data_append]
  exact charsHave_append_left _ _ _ h

theorem strContains_left (s t : String) : strContains (s ++ t) s = true := by
  unfold strContains
  rw [String.data_append]
  exact charsHave_of_lead _ _
    (charsLead_append_right s.data s.data t.data (charsLead_refl s.data))

theorem intercalate_go_contains (pat s : String) :
    ∀ (l : List String) (acc : String),
      (strContains acc pat = true ∨ ∃ a ∈ l, strContains a pat = true) →
      strContains (String.intercalate.go acc s l) pat = true := by
  intro l
  induction l with
  | nil =>
    intro acc h
    rcases h with h | ⟨a, ha, _⟩
    · exact h
    · cases ha
  | cons b bs ih =>
    intro acc h
    show strContains (String.intercalate.go (acc ++ s ++ b) s bs) pat = true
    apply ih
    rcases h with h | ⟨a, ha, hap⟩
    · exact Or.inl
        (strContains_append_right _ _ _ (strContains_append_right _ _ _ h))
    · rcases List.mem_cons.mp ha with rfl | ha2
      · exact Or.inl (strContains_append_left _ _ _ hap)
      · exact Or.inr ⟨a, ha2, hap⟩

theorem intercalate_contains (s pat : String) (l : List String) (a : String)
    (ha : a ∈ l) (hap : strContains a pat = true) :
    strContains (String.intercalate s l) pat = true := by
  cases l with
  | nil => cases ha
  | cons b bs =>
    show strContains (String.intercalate.go b s bs) pat = true
    apply intercalate_go_contains
    rcases List.mem_cons.mp ha with rfl | ha2
    · exact Or.inl hap
    · exact Or.inr ⟨a, ha2, hap⟩

theorem getParam_foldl_none (k : String) :
    ∀ (params : List (String × String)) (acc : Option String),
      (∀ p ∈ params, (p.1 == k) = false) →
      params.foldl (fun acc p => if p.1 == k then some p.2 else acc) acc
        = acc := by
  intro params
  induction params with
  | nil => intro acc _; rfl
  | cons q qs ih =>
    intro acc h
    have hq : (q.1 == k) = false := h q (List.mem_cons_self q qs)
    rw [List.foldl_cons]
    simp only [hq, Bool.false_eq_true, if_false]
    exact ih acc fun p hp => h p (List.mem_cons_of_mem q hp)

theorem getParam_some_has_pair (params : List (String × String))
    (k v : String) (h : getParam params k = some v) :
    ∃ p ∈ params, p.1 = k := by
  by_contra hn
  push_neg at hn
  have hall : ∀ p ∈ params, (p.1 == k) = false := by
    intro p hp
    cases hbe : (p.1 == k) with
    | false => rfl
    | true => exact absurd (eq_of_beq hbe) (hn p hp)
  have hnone : getParam params k = none :=
    getParam_foldl_none k params none hall
  rw [hnone] at h
  cases h

theorem rawQueryString_contains_key (params : List (String × String))
    (v : String) (h : getParam params "key" = some v) :
    strContains (rawQueryString params) "key=" = true := by
  obtain ⟨p, hp, hpk⟩ := getParam_some_has_pair params "key" v h
  have hmem : (p.1 ++ "=" ++ p.2) ∈ params.map (fun q => q.1 ++ "=" ++ q.2) :=
    List.mem_map_of_mem _ hp
  have hfinal := intercalate_contains "&" (p.1 ++ "=")
    (params.map (fun q => q.1 ++ "=" ++ q.2)) (p.1 ++ "=" ++ p.2) hmem
    (strContains_left (p.1 ++ "=") p.2)
  rw [hpk] at hfinal
  have heq2 : ("key" ++ "=" : String) = "key=" := by decide
  rw [heq2] at hfinal
  exact hfinal

theorem get_queryset_of_truthy (u : Option User)
    (params : List (String × String)) (devices : List Device)
    (h : truthyParam params "key" = true) :
    DeviceLocationView.get_queryset u params devices = devices := by
  cases u with
  | none =>
    simp [DeviceLocationView.get_queryset,
      DeviceLocationView.get_organization_queryset]
  | some user =>
    by_cases hsu : user.is_superuser = true <;>
      simp [DeviceLocationView.get_queryset,
        DeviceLocationView.get_organization_queryset, hsu, h]

/-- The device of the C2 counterexample and witness: it belongs to
organization 5 and its stored key is "k". -/
def c2_device2 : Device :=
  { id := 1, organization := 5, name := "d", key := "k" }

/-- The database of the C2 counterexample and witness. -/
def c2_db2 : DB :=
  { devices := [c2_device2], locations := [], devicelocations := [],
    floorplans := [] }

/-- The caller of the C2 counterexample: an authenticated non-superuser
operator whose organizations do not include the device's. -/
def c2_user : User := { id := 2, organizations := [1], is_superuser := false }

/-- Claim C2 counterexample: this request carries the `key` query
parameter with the empty value, which mismatches the stored key "k",
yet the authenticated out-of-organization caller (holding full model
permissions) receives Not-Found rather than the 403 the claim asserts
for every mismatching key-carrying request: the organization filter of
get_organization_queryset (views.py lines 72-74) treats the empty
(falsy) key as absent and hides the device before the key check runs. -/
theorem c2_empty_key_mismatch_counterexample :
    getParam [("key", "")] "key" = some ""
    ∧ "" ≠ c2_device2.key
    ∧ device_location_endpoint c2_db2 (some c2_user) true [("key", "")]
        1 .GET = (.notFound, c2_db2)
    ∧ device_location_endpoint c2_db2 (some c2_user) true [("key", "")]
        1 .GET ≠ (.forbidden, c2_db2) := by
  refine ⟨rfl, by decide, by decide, by decide⟩

/-- Claim C2 (amended): for a request carrying a `key` query parameter,
access to the device's association is granted iff the parameter equals
the device's stored key (first conjunct, for a stored key that is not
the empty string); a mismatching non-empty key value on an existing
device yields 403 forbidden rather than 404 for every caller,
authenticated or not (second conjunct); an authenticated non-superuser
caller presenting an empty key value for a device outside their
organizations instead receives 404, because the organization filter
treats the falsy key as absent (third conjunct); an anonymous request
with no key parameter is always denied (fourth conjunct). -/
theorem c2_device_key_mismatch_behavior (params : List (String × String))
    (v k : String) (db : DB) (u : Option User) (mp : Bool) (pk : Nat)
    (device : Device) (user : User) :
    (getParam params "key" = some v → k ≠ "" →
      ((DevicePermission.has_object_permission params k = true) ↔ v = k))
    ∧ (getParam params "key" = some v → v ≠ "" →
       db.devices.find? (fun d => d.id == pk) = some device →
       v ≠ device.key →
       device_location_endpoint db u mp params pk .GET = (.forbidden, db))
    ∧ (user.is_superuser = false → getParam params "key" = some "" →
       (∀ d ∈ db.devices, d.id = pk →
         user.organizations.contains d.organization = false) →
       device_location_endpoint db (some user) mp params pk .GET
         = (.notFound, db))
    ∧ (getParam params "key" = none →
       authorizationDecision none mp params k = false) := by
  refine ⟨?_, ?_, ?_, ?_⟩
  · intro hv hk
    by_cases hv0 : v = ""
    · subst hv0
      simp [DevicePermission.has_object_permission, truthyParam, hv]
      exact fun h => hk h.symm
    · simp [DevicePermission.has_object_permission, truthyParam, hv, hv0]
  · intro hv hv0 hdev hne
    have hsub := rawQueryString_contains_key params v hv
    have hperms :=
      get_permissions_of_key_substr u.isSome (rawQueryString params) hsub
    have htruthy : truthyParam params "key" = true := by
      unfold truthyParam
      rw [hv]
      simp [hv0]
    have hqs := get_queryset_of_truthy u params db.devices htruthy
    have hobj : DevicePermission.has_object_permission params device.key
        = false := by
      unfold DevicePermission.has_object_permission
      rw [htruthy, hv]
      simp [hne]
    unfold device_location_endpoint
    simp [hperms, hqs, hdev, permAllowsRequest, permAllowsObject, hobj]
  · intro hsu hv hout
    have hsub := rawQueryString_contains_key params "" hv
    have hperms :=
      get_permissions_of_key_substr true (rawQueryString params) hsub
    have htr : truthyParam params "key" = false := by
      unfold truthyParam
      rw [hv]
      decide
    have hqs : DeviceLocationView.get_queryset (some user) params db.devices
        = db.devices.filter
            (fun d => user.organizations.contains d.organization) := by
      simp [DeviceLocationView.get_queryset,
        DeviceLocationView.get_organization_queryset, hsu, htr]
    have hfind : (db.devices.filter
          (fun d => user.organizations.contains d.organization)).find?
            (fun d => d.id == pk) = none := by
      rw [List.find?_eq_none]
      intro d hd hdk
      rw [List.mem_filter] at hd
      have hdp : d.id = pk := by simpa using hdk
      have hfalse := hout d hd.1 hdp
      have h2 := hd.2
      rw [hfalse] at h2
      cases h2
    unfold device_location_endpoint
    simp only [Option.isSome, hperms, hqs, hfind]
    rfl
  · intro hv
    simp [authorizationDecision, DeviceLocationView.get_permissions,
      permAllowsRequest, permAllowsObject,
      DevicePermission.has_object_permission, truthyParam, hv]

/-- Claim C2 witness: an authenticated out-of-organization caller
sending a non-empty wrong key receives 403 forbidden, not 404. -/
theorem c2_device_key_mismatch_behavior_witness :
    device_location_endpoint c2_db2 (some c2_user) true
      [("key", "wrong")] 1 .GET = (.forbidden, c2_db2) :=
  (c2_device_key_mismatch_behavior [("key", "wrong")] "wrong" "k" c2_db2
    (some c2_user) true 1 c2_device2 c2_user).2.1
    rfl (by decide) (by decide) (by decide)

/-- Claim C6: a PATCH or DELETE on the single-device endpoint that
passes authorization but targets a device with no DeviceLocation
answers Not-Found and leaves the database untouched: auto-provisioning
never fires on these verbs (views.py lines 111-112). -/
theorem c6_patch_delete_no_association_not_found (db : DB)
    (u : Option User) (mp : Bool) (params : List (String × String))
    (pk : Nat) (method : Method) (device : Device)
    (hm : method = .PATCH ∨ method = .DELETE)
    (hdev : (DeviceLocationView.get_queryset u params db.devices).find?
        (fun d => d.id == pk) = some device)
    (hauth : authorizationDecision u mp params device.key = true)
    (hdl : db.devicelocations.find? (fun dl => dl.device == device.id)
        = none) :
    device_location_endpoint db u mp params pk method = (.notFound, db) := by
  have hpost : method ≠ .POST := by
    rcases hm with rfl | rfl <;> intro h <;> cases h
  rw [endpoint_eq_of_auth db u mp params pk method device hdev hauth hpost]
  unfold postAuthStep
  rw [hdl]
  rcases hm with rfl | rfl <;> rfl

/-- Claim C6 witness: an authorized PATCH (correct device key) on a
device with no association answers Not-Found with the database
unchanged. -/
theorem c6_patch_delete_no_association_not_found_witness :
    device_location_endpoint c1_db none false [("key", "k")] 1 .PATCH
      = (.notFound, c1_db) :=
  c6_patch_delete_no_association_not_found c1_db none false [("key", "k")]
    1 .PATCH c1_device (Or.inl rfl) (by decide) (by decide) (by decide)

/-- Claim C7: when a write-implying request (PUT, the only
auto-provisioning verb in views.py get_object) passes authorization and
finds no DeviceLocation, create_devicelocation appends exactly one
Location carrying the device's name and organization, type outdoor,
is_mobile true and no geometry, and exactly one DeviceLocation linking
the device to it with no floorplan and indoor equal to the empty
string; devices and floorplans are untouched. -/
theorem c7_autoprovision_creates_default_rows (db : DB) (u : Option User)
    (mp : Bool) (params : List (String × String)) (pk : Nat)
    (device : Device)
    (hdev : (DeviceLocationView.get_queryset u params db.devices).find?
        (fun d => d.id == pk) = some device)
    (hauth : authorizationDecision u mp params device.key = true)
    (hdl : db.devicelocations.find? (fun dl => dl.device == device.id)
        = none) :
    device_location_endpoint db u mp params pk .PUT
      = (.writeDelegated (DeviceLocationView.create_devicelocation db device).1,
         (DeviceLocationView.create_devicelocation db device).2)
    ∧ ∃ loc : Location,
      (DeviceLocationView.create_devicelocation db device).2.locations
        = db.locations ++ [loc]
      ∧ loc.name = device.name
      ∧ loc.type = .outdoor
      ∧ loc.organization = device.organization
      ∧ loc.is_mobile = true
      ∧ loc.geometry = none
      ∧ (DeviceLocationView.create_devicelocation db device).2.devicelocations
          = db.devicelocations
            ++ [(DeviceLocationView.create_devicelocation db device).1]
      ∧ (DeviceLocationView.create_devicelocation db device).1.device
          = device.id
      ∧ (DeviceLocationView.create_devicelocation db device).1.location
          = loc.id
      ∧ (DeviceLocationView.create_devicelocation db device).1.floorplan
          = none
      ∧ (DeviceLocationView.create_devicelocation db device).1.indoor
          = some ""
      ∧ (DeviceLocationView.create_devicelocation db device).2.devices
          = db.devices
      ∧ (DeviceLocationView.create_devicelocation db device).2.floorplans
          = db.floorplans := by
  constructor
  · rw [endpoint_eq_of_auth db u mp params pk .PUT device hdev hauth
      (by intro h; cases h)]
    unfold postAuthStep
    rw [hdl]
  · exact ⟨_, rfl, rfl, rfl, rfl, rfl, rfl, rfl, rfl, rfl, rfl, rfl, rfl,
      rfl⟩

/-- Claim C7 witness: at the concrete one-device database, the
authorized PUT auto-provisions and the created rows have the stated
shape. -/
theorem c7_autoprovision_creates_default_rows_witness :
    device_location_endpoint c1_db none false [("key", "k")] 1 .PUT
      = (.writeDelegated
          (DeviceLocationView.create_devicelocation c1_db c1_device).1,
         (DeviceLocationView.create_devicelocation c1_db c1_device).2) :=
  (c7_autoprovision_creates_default_rows c1_db none false [("key", "k")]
    1 c1_device (by decide) (by decide) (by decide)).1

/-- Claim C9: an authorized DELETE on a device with an existing
association answers 204 no-content, removes exactly that DeviceLocation
row, and leaves the locations, devices and floorplans tables
unchanged. -/
theorem c9_delete_removes_only_the_association (db : DB) (u : Option User)
    (mp : Bool) (params : List (String × String)) (pk : Nat)
    (device : Device) (dl : DeviceLocation)
    (hdev : (DeviceLocationView.get_queryset u params db.devices).find?
        (fun d => d.id == pk) = some device)
    (hauth : authorizationDecision u mp params device.key = true)
    (hdl : db.devicelocations.find? (fun x => x.device == device.id)
        = some dl) :
    device_location_endpoint db u mp params pk .DELETE
      = (.noContent,
         { db with devicelocations :=
            db.devicelocations.filter fun x => !(x.id == dl.id) })
    ∧ dl ∉ (device_location_endpoint db u mp params pk .DELETE).2.devicelocations
    ∧ (device_location_endpoint db u mp params pk .DELETE).2.locations
        = db.locations
    ∧ (device_location_endpoint db u mp params pk .DELETE).2.devices
        = db.devices
    ∧ (device_location_endpoint db u mp params pk .DELETE).2.floorplans
        = db.floorplans := by
  have hmain : device_location_endpoint db u mp params pk .DELETE
      = (.noContent,
         { db with devicelocations :=
            db.devicelocations.filter fun x => !(x.id == dl.id) }) := by
    rw [endpoint_eq_of_auth db u mp params pk .DELETE device hdev hauth
      (by intro h; cases h)]
    unfold postAuthStep
    rw [hdl]
  refine ⟨hmain, ?_, ?_, ?_, ?_⟩
  · rw [hmain]
    simp [List.mem_filter]
  · rw [hmain]
  · rw [hmain]
  · rw [hmain]

/-- The database of the C9 witness: one device with one association. -/
def c9_db : DB :=
  { devices := [c1_device]
    locations := [{ id := 4, organization := 1, name := "loc",
                    type := .outdoor, is_mobile := false, address := "",
                    geometry := some (2, 23) }]
    devicelocations := [{ id := 9, device := 1, location := 4,
                          floorplan := none, indoor := none }]
    floorplans := [] }

/-- Claim C9 witness: at the concrete database, the authorized DELETE
removes the association row and answers no-content. -/
theorem c9_delete_removes_only_the_association_witness :
    device_location_endpoint c9_db none false [("key", "k")] 1 .DELETE
      = (.noContent,
         { c9_db with devicelocations :=
            c9_db.devicelocations.filter fun x => !(x.id == 9) }) :=
  (c9_delete_removes_only_the_association c9_db none false [("key", "k")]
    1 c1_device
    { id := 9, device := 1, location := 4, floorplan := none,
      indoor := none }
    (by decide) (by decide) (by decide)).1

theorem find_map_of_id_preserved (g : Location → Location)
    (hg : ∀ l, (g l).id = l.id) (x : Nat) (ls : List Location) :
    (ls.map g).find? (fun l => l.id == x)
      = (ls.find? (fun l => l.id == x)).map g := by
  induction ls with
  | nil => rfl
  | cons a as ih =>
    by_cases h : (a.id == x) = true
    · simp [List.find?_cons, hg, h]
    · simp only [Bool.not_eq_true] at h
      simp [List.find?_cons, hg, h, ih]

theorem setLocationOutdoor_id (locId : Nat) (l : Location) :
    (setLocationOutdoor locId l).id = l.id := by
  unfold setLocationOutdoor
  by_cases h : (l.id == locId) = true <;> simp [h]

theorem locationOfDL_cascade (db : DB) (locId : Nat) (d : DeviceLocation) :
    locationOfDL (location_change_type_to_outdoor db locId) d
      = (db.locations.find? (fun l => l.id == d.location)).map
          (setLocationOutdoor locId) := by
  show (db.locations.map (setLocationOutdoor locId)).find?
      (fun l => l.id == d.location) = _
  exact find_map_of_id_preserved (setLocationOutdoor locId)
    (setLocationOutdoor_id locId) d.location db.locations

theorem dlOutdoorOk_of_cleared (db2 : DB) (d : DeviceLocation)
    (hfp : d.floorplan = none) (hind : d.indoor = none) :
    dlOutdoorOk db2 d = true := by
  unfold dlOutdoorOk
  cases h : locationOfDL db2 d with
  | none => rfl
  | some l =>
    rw [hfp, hind]
    by_cases hl : (l.type == LocationType.outdoor) = true <;> simp [hl]

/-- Claim C3: the outdoor invariant (an association whose location is
outdoor has no floorplan and an empty or null indoor string) is
preserved by the type-change-to-outdoor write, which in one step also
deletes every FloorPlan anchored to the changed location and clears
floorplan and indoor on every association referencing it. -/
theorem c3_outdoor_type_cascade (db : DB) (locId : Nat)
    (hinv : outdoorInvariant db) :
    outdoorInvariant (location_change_type_to_outdoor db locId)
    ∧ (∀ f ∈ (location_change_type_to_outdoor db locId).floorplans,
        f.location ≠ locId)
    ∧ (∀ d ∈ (location_change_type_to_outdoor db locId).devicelocations,
        d.location = locId → d.floorplan = none ∧ d.indoor = none) := by
  refine ⟨?_, ?_, ?_⟩
  · intro d' hd'
    have hmem : d' ∈ db.devicelocations.map (clearAssociation locId) := hd'
    rw [List.mem_map] at hmem
    obtain ⟨d, hd, rfl⟩ := hmem
    by_cases hcase : (d.location == locId) = true
    · have hclear : clearAssociation locId d
          = { d with floorplan := none, indoor := none } := by
        unfold clearAssociation
        rw [if_pos hcase]
      rw [hclear]
      exact dlOutdoorOk_of_cleared _ _ rfl rfl
    · have hsame : clearAssociation locId d = d := by
        unfold clearAssociation
        rw [if_neg hcase]
      rw [hsame]
      have hold := hinv d hd
      unfold dlOutdoorOk at hold ⊢
      unfold locationOfDL at hold
      rw [locationOfDL_cascade]
      cases hfind : db.locations.find? (fun l => l.id == d.location) with
      | none => rfl
      | some l =>
        have hl1 : l.id = d.location := by
          have hlid := List.find?_some hfind
          simpa using hlid
        have hne : (l.id == locId) = false := by
          rw [hl1]
          exact Bool.eq_false_iff.mpr hcase
        have hgl : setLocationOutdoor locId l = l := by
          unfold setLocationOutdoor
          rw [hne]
          rfl
        rw [hfind] at hold
        simp only [Option.map_some', hgl]
        exact hold
  · intro f hf heq
    have hmem : f ∈ db.floorplans.filter (fun f => !(f.location == locId)) :=
      hf
    rw [List.mem_filter] at hmem
    have hb := hmem.2
    simp [heq] at hb
  · intro d' hd' heq
    have hmem : d' ∈ db.devicelocations.map (clearAssociation locId) := hd'
    rw [List.mem_map] at hmem
    obtain ⟨d, hd, rfl⟩ := hmem
    by_cases hcase : (d.location == locId) = true
    · have hclear : clearAssociation locId d
          = { d with floorplan := none, indoor := none } := by
        unfold clearAssociation
        rw [if_pos hcase]
      rw [hclear]
      exact ⟨rfl, rfl⟩
    · have hsame : clearAssociation locId d = d := by
        unfold clearAssociation
        rw [if_neg hcase]
      rw [hsame] at heq
      exact absurd (by simp [heq]) hcase

/-- The database of the C3 witness: an indoor location with a floorplan
and a device association pinned to it. -/
def c3_db : DB :=
  { devices := [c1_device]
    locations := [{ id := 1, organization := 1, name := "location1org",
                    type := .indoor, is_mobile := false, address := "",
                    geometry := none }]
    devicelocations := [{ id := 1, device := 1, location := 1,
                          floorplan := some 1,
                          indoor := some "123.1, 32" }]
    floorplans := [{ id := 1, location := 1, floor := 13,
                     organization := 1 }] }

/-- Claim C3 witness: at the concrete indoor database the cascade keeps
the invariant, removes every floorplan of the location and clears the
association. -/
theorem c3_outdoor_type_cascade_witness :
    outdoorInvariant (location_change_type_to_outdoor c3_db 1)
    ∧ (∀ f ∈ (location_change_type_to_outdoor c3_db 1).floorplans,
        f.location ≠ 1)
    ∧ (∀ d ∈ (location_change_type_to_outdoor c3_db 1).devicelocations,
        d.location = 1 → d.floorplan = none ∧ d.indoor = none) :=
  c3_outdoor_type_cascade c3_db 1 (by decide)

/-- Claim C4: a location create whose payload carries a nested
floorplan while the resolved type is outdoor is rejected with a
validation error whose message contains "indoor", and no row is
written (the call never returns a new database). -/
theorem c4_outdoor_floorplan_rejected (db : DB)
    (p : LocationCreatePayload) (hfp : p.floorplan.isSome = true)
    (hty : p.type = .outdoor) :
    location_create db p
      = .error "Floorplan can only be added with location of the type indoor"
    ∧ strContains
        "Floorplan can only be added with location of the type indoor"
        "indoor" = true
    ∧ ∀ db2 : DB, location_create db p ≠ .ok db2 := by
  have herr : location_create db p
      = .error "Floorplan can only be added with location of the type indoor"
      := by
    unfold location_create
    rw [if_pos]
    rw [hfp, hty]
    rfl
  refine ⟨herr, by decide, ?_⟩
  intro db2 hok
  rw [herr] at hok
  cases hok

/-- Claim C4 witness: the concrete outdoor payload with a nested
floorplan is rejected with the indoor-only validation error. -/
theorem c4_outdoor_floorplan_rejected_witness :
    location_create
      { devices := [], locations := [], devicelocations := [],
        floorplans := [] }
      { organization := 1, name := "test-location", type := .outdoor,
        is_mobile := false, address := "Via del Corso, Roma, Italia",
        geometry := some (2, 23), floorplan := some { floor := 12 } }
      = .error "Floorplan can only be added with location of the type indoor"
      :=
  (c4_outdoor_floorplan_rejected
    { devices := [], locations := [], devicelocations := [],
      floorplans := [] }
    { organization := 1, name := "test-location", type := .outdoor,
      is_mobile := false, address := "Via del Corso, Roma, Italia",
      geometry := some (2, 23), floorplan := some { floor := 12 } }
    rfl rfl).1

/-- Claim C5: non-superuser operators see exactly the objects of the
organizations they belong to, a superuser sees the unrestricted set,
and a caller presenting a device key is exempt from the organization
filter of the single-device view. -/
theorem c5_organization_scoping (user : User) (u : Option User)
    (params : List (String × String)) (locs : List Location)
    (devices : List Device) :
    (user.is_superuser = false →
      ∀ l : Location,
        l ∈ filterByOrganizationManaged Location.organization (some user) locs
          ↔ (l ∈ locs ∧ l.organization ∈ user.organizations))
    ∧ (user.is_superuser = true →
        filterByOrganizationManaged Location.organization (some user) locs
          = locs)
    ∧ (truthyParam params "key" = true →
        DeviceLocationView.get_queryset u params devices = devices) := by
  refine ⟨?_, ?_, ?_⟩
  · intro hsu l
    simp [filterByOrganizationManaged, hsu, List.mem_filter]
  · intro hsu
    simp [filterByOrganizationManaged, hsu]
  · intro hkey
    cases u with
    | none =>
        simp [DeviceLocationView.get_queryset,
          DeviceLocationView.get_organization_queryset]
    | some user2 =>
        by_cases hsu : user2.is_superuser = true <;>
          simp [DeviceLocationView.get_queryset,
            DeviceLocationView.get_organization_queryset, hsu, hkey]

/-- Claim C5 witness: a superuser's collection read is unrestricted,
evaluated at a one-element location list. -/
theorem c5_organization_scoping_witness :
    filterByOrganizationManaged Location.organization
      (some { id := 3, organizations := [], is_superuser := true })
      [{ id := 1, organization := 9, name := "loc-b", type := .outdoor,
         is_mobile := false, address := "", geometry := none }]
      = [{ id := 1, organization := 9, name := "loc-b",
           type := .outdoor, is_mobile := false, address := "",
           geometry := none }] :=
  (c5_organization_scoping
    { id := 3, organizations := [], is_superuser := true } none []
    [{ id := 1, organization := 9, name := "loc-b", type := .outdoor,
       is_mobile := false, address := "", geometry := none }]
    []).2.1 rfl

/-- Claim C8: a nested location write through the single-device
endpoint stores the organization taken from the device-org context;
two payloads differing only in their organization entry validate to the
same data, and the stored organization equals the context value. -/
theorem c8_nested_org_from_context (device_org : Option Nat)
    (p : NestedLocationPayload) (o1 o2 : Option Nat) :
    DeviceLocationNestedSerializer.run device_org
        { p with organization := o1 }
      = DeviceLocationNestedSerializer.run device_org
          { p with organization := o2 }
    ∧ (DeviceLocationNestedSerializer.run device_org p).organization
        = device_org :=
  ⟨rfl, rfl⟩

/-- Claim C10: when the raw query string contains the substring
`key=` (also inside a longer parameter name), the authorization
decision equals the device-key check alone, is unchanged under any
variation of the caller's account and model permissions, and denies
whenever no `key` parameter carries exactly the device's secret. -/
theorem c10_key_substring_forces_device_permission
    (params : List (String × String)) (k : String) (u u2 : Option User)
    (mp mp2 : Bool)
    (hqs : strContains (rawQueryString params) "key=" = true) :
    authorizationDecision u mp params k
        = DevicePermission.has_object_permission params k
    ∧ authorizationDecision u mp params k
        = authorizationDecision u2 mp2 params k
    ∧ (getParam params "key" ≠ some k →
        authorizationDecision u mp params k = false) := by
  have hperm : ∀ u3 : Option User, ∀ mp3 : Bool,
      authorizationDecision u3 mp3 params k
        = DevicePermission.has_object_permission params k := by
    intro u3 mp3
    unfold authorizationDecision
    rw [get_permissions_of_key_substr u3.isSome (rawQueryString params) hqs]
    simp [permAllowsRequest, permAllowsObject]
  refine ⟨hperm u mp, (hperm u mp).trans (hperm u2 mp2).symm, ?_⟩
  intro hne
  rw [hperm u mp]
  unfold DevicePermission.has_object_permission truthyParam
  cases hv : getParam params "key" with
  | none => rfl
  | some v =>
    by_cases hv0 : v = ""
    · simp [hv0]
    · have : v ≠ k := by
        intro h
        exact hne (by rw [hv, h])
      simp [hv0, this]

/-- Claim C10 witness: an authenticated superuser with full model
permissions sending `monkey=5` is denied, because only the device-key
check is consulted and no key parameter is present. -/
theorem c10_key_substring_forces_device_permission_witness :
    authorizationDecision
      (some { id := 3, organizations := [1], is_superuser := true })
      true [("monkey", "5")] "secret" = false :=
  (c10_key_substring_forces_device_permission [("monkey", "5")] "secret"
    (some { id := 3, organizations := [1], is_superuser := true }) none
    true false (by decide)).2.2 (by decide)

end OpenwispGeo
